import Mathlib

/-!
Verification development for the MediaPoster repository.

The definitions below are a shallow embedding of the JavaScript source:

* `src/src/utils/mediaHelper.js`  — `isVideo`
* `src/src/services/facebook.js`  — `postToFacebook`
* `src/unnamed/part_002`          — `postToTelegram`
* the TikTok adapter              — `postToTikTok`
* the uploader's `postToAllPlatforms`
* the database model `ScheduledPostModel.getPending`
* `src/src/services/scheduler.js` — `processScheduledPost`, `getMimeType`
* `src/src/routes/scheduled.js`   — the create and cancel route handlers
* `src/src/services/instagram.js` — `waitForMediaReady`

JavaScript strings are Lean `String`s; an absent/empty credential field
(falsy in JavaScript) is the empty string.  The network is an explicit
oracle: `NetOutcome` is what a platform's HTTP pipeline would do
(resolve with an id, or throw with a message), and a dispatch receives
one outcome per platform.  The per-slot promise of `Promise.allSettled`
is modelled by a `fault` map: `fault i = some msg` means slot `i`'s
promise rejected with reason message `msg` (the empty string standing
for a falsy/absent `reason.message`).
-/

namespace MediaPoster

/-- Splits a character list on a separator character; this is the behaviour
of `String.split` / `path` segmentation used below, written structurally. -/
def splitOnChar (c : Char) : List Char → List (List Char)
  | [] => [[]]
  | x :: xs =>
    let r := splitOnChar c xs
    if x = c then [] :: r
    else
      match r with
      | [] => [[x]]
      | y :: ys => (x :: y) :: ys

/-- Embedding of JavaScript `String.prototype.toLowerCase` (ASCII letters,
which is all the source ever feeds it). -/
def jsToLower (s : String) : String :=
  String.mk (s.data.map Char.toLower)

/-- Embedding of `path.basename`: the last `/`-separated segment. -/
def basename (p : String) : String :=
  String.mk ((splitOnChar '/' p.data).getLastD [])

/-- Embedding of `path.extname`: the suffix of the basename starting at its
last dot, except that a lone leading dot (a dot-file) has no extension. -/
def extname (p : String) : String :=
  let b := (splitOnChar '/' p.data).getLastD []
  let parts := splitOnChar '.' b
  if parts.length ≤ 1 then ""
  else if b.headD ' ' = '.' ∧ parts.length = 2 then ""
  else "." ++ String.mk (parts.getLastD [])

/-- Embedding of `getMimeType` from `src/src/services/scheduler.js` lines
70–84: map the lower-cased file extension through the fixed table,
defaulting to `application/octet-stream`. -/
def getMimeType (filePath : String) : String :=
  let ext := jsToLower (extname filePath)
  if ext = ".jpg" then "image/jpeg"
  else if ext = ".jpeg" then "image/jpeg"
  else if ext = ".png" then "image/png"
  else if ext = ".gif" then "image/gif"
  else if ext = ".webp" then "image/webp"
  else if ext = ".mp4" then "video/mp4"
  else if ext = ".mov" then "video/quicktime"
  else if ext = ".avi" then "video/x-msvideo"
  else if ext = ".webm" then "video/webm"
  else "application/octet-stream"

/-- Embedding of `isVideo` from `src/src/utils/mediaHelper.js` lines 21–23:
`mimetype.startsWith('video/')`. -/
def isVideo (mimetype : String) : Bool :=
  "video/".data.isPrefixOf mimetype.data

/-- One uploaded file as the uploader sees it (`path`, `mimetype`,
`originalname`). -/
structure MediaFile where
  path : String
  mimetype : String
  originalname : String
  deriving Repr, DecidableEq

/-- The per-platform result object every adapter resolves with.  Fields the
source only sets on some shapes are `Option`s defaulting to `none`. -/
structure PlatformResult where
  success : Bool
  platform : String
  error : Option String := none
  postId : Option String := none
  messageId : Option String := none
  publishId : Option String := none
  message : Option String := none
  deriving Repr, DecidableEq

/-- The flattened `userSettings` object handed to the adapters (keys
`facebook_page_id`, …).  The empty string models a missing (falsy) field. -/
structure UserSettings where
  facebook_page_id : String := ""
  facebook_access_token : String := ""
  telegram_bot_token : String := ""
  telegram_chat_id : String := ""
  tiktok_access_token : String := ""
  tiktok_open_id : String := ""
  deriving Repr, DecidableEq

/-- What a platform's network pipeline does when it is actually invoked:
resolve with the id the platform returned, or throw with a message. -/
inductive NetOutcome where
  | ok (id : String)
  | err (msg : String)
  deriving Repr, DecidableEq

/-- Embedding of `postToFacebook` (`src/src/services/facebook.js` lines
97–134).  The body is one `try/catch`: first the credential check (which
throws `Facebook credentials not configured` into the catch without any
network call), then the photo/video helpers, all of whose network
behaviour is the oracle `net`; the catch converts a throw into a failure
result, so the adapter always returns exactly one `PlatformResult`. -/
def postToFacebook (files : List MediaFile) (caption : String)
    (mediaType : String) (userSettings : UserSettings)
    (net : NetOutcome) : PlatformResult :=
  if userSettings.facebook_page_id = "" ∨ userSettings.facebook_access_token = "" then
    { success := false, platform := "facebook",
      error := some "Facebook credentials not configured" }
  else
    match net with
    | .ok id =>
      { success := true, platform := "facebook", postId := some id,
        message := some "Successfully posted to Facebook" }
    | .err m =>
      { success := false, platform := "facebook", error := some m }

/-- Embedding of `postToTelegram` (`src/unnamed/part_002` lines 80–118),
with the same `try/catch` structure as the Facebook adapter. -/
def postToTelegram (files : List MediaFile) (caption : String)
    (mediaType : String) (userSettings : UserSettings)
    (net : NetOutcome) : PlatformResult :=
  if userSettings.telegram_bot_token = "" ∨ userSettings.telegram_chat_id = "" then
    { success := false, platform := "telegram",
      error := some "Telegram credentials not configured" }
  else
    match net with
    | .ok id =>
      { success := true, platform := "telegram", messageId := some id,
        message := some "Successfully posted to Telegram" }
    | .err m =>
      { success := false, platform := "telegram", error := some m }

/-- Embedding of `postToTikTok`: the media-type guard comes first (TikTok
only takes video), then `postVideo`'s credential check, then the upload
pipeline modelled by `net`; the surrounding `try/catch` again converts
any throw into a failure result. -/
def postToTikTok (files : List MediaFile) (caption : String)
    (mediaType : String) (userSettings : UserSettings)
    (net : NetOutcome) : PlatformResult :=
  if mediaType ≠ "video" then
    { success := false, platform := "tiktok",
      error := some "TikTok only supports video uploads" }
  else if userSettings.tiktok_access_token = "" ∨ userSettings.tiktok_open_id = "" then
    { success := false, platform := "tiktok",
      error := some "TikTok credentials not configured" }
  else
    match net with
    | .ok id =>
      { success := true, platform := "tiktok", publishId := some id,
        message := some "Video uploaded to TikTok (check your drafts)" }
    | .err m =>
      { success := false, platform := "tiktok", error := some m }

/-- The `switch (platform.toLowerCase())` body of the arrow function inside
`postToAllPlatforms` (`src/src/services/scheduler.js` lines 154–181). -/
def dispatchOne (files : List MediaFile) (caption : String)
    (mediaType : String) (userSettings : UserSettings)
    (net : String → NetOutcome) (platform : String) : PlatformResult :=
  let p := jsToLower platform
  if p = "facebook" then
    postToFacebook files caption mediaType userSettings (net "facebook")
  else if p = "telegram" then
    postToTelegram files caption mediaType userSettings (net "telegram")
  else if p = "tiktok" then
    postToTikTok files caption mediaType userSettings (net "tiktok")
  else if p = "instagram" then
    { success := false, platform := "instagram",
      error := some "Instagram integration coming soon" }
  else if p = "youtube" then
    { success := false, platform := "youtube",
      error := some "YouTube integration coming soon" }
  else
    { success := false, platform := platform,
      error := some ("Unknown platform: " ++ platform) }

/-- How `postToAllPlatforms` turns slot `i`'s settled promise into the
pushed result (lines 186–196): a fulfilled promise contributes its value;
a rejected one contributes a failure tagged with `platforms[index]`,
its error being `reason.message` or `Unknown error` when that is falsy. -/
def settleSlot (files : List MediaFile) (caption : String)
    (mediaType : String) (userSettings : UserSettings)
    (net : String → NetOutcome) (fault : Nat → Option String)
    (i : Nat) (platform : String) : PlatformResult :=
  match fault i with
  | some msg =>
    { success := false, platform := platform,
      error := some (if msg = "" then "Unknown error" else msg) }
  | none => dispatchOne files caption mediaType userSettings net platform

/-- Index-aware map over the platform list, building the `results` array in
input order exactly as the `forEach` over `Promise.allSettled` does. -/
def settleAll (files : List MediaFile) (caption : String)
    (mediaType : String) (userSettings : UserSettings)
    (net : String → NetOutcome) (fault : Nat → Option String) :
    Nat → List String → List PlatformResult
  | _, [] => []
  | i, p :: ps =>
    settleSlot files caption mediaType userSettings net fault i p ::
      settleAll files caption mediaType userSettings net fault (i + 1) ps

/-- The media kind derived on line 150 from the first file's MIME type. -/
def mediaKind (f : MediaFile) : String :=
  if isVideo f.mimetype then "video" else "photo"

/-- Embedding of `postToAllPlatforms` (uploader, lines 149–199).  Reading
`files[0].mimetype` on an empty `files` array throws a `TypeError`
before any per-platform work, so the function is `Except`-valued; on a
non-empty array it never throws and returns one result per platform in
input order. -/
def postToAllPlatforms (platforms : List String) (files : List MediaFile)
    (caption : String) (userSettings : UserSettings)
    (net : String → NetOutcome) (fault : Nat → Option String) :
    Except String (List PlatformResult) :=
  match files with
  | [] => .error "TypeError: cannot read mimetype of undefined"
  | f :: _ =>
    .ok (settleAll files caption (mediaKind f) userSettings net fault 0 platforms)

/-- One row of the `scheduled_posts` table in its parsed form (timestamps
are seconds of local wall-clock time, which SQLite's text `DATETIME`
comparison orders identically). -/
structure ScheduledPost where
  id : String
  user_id : String
  platforms : List String
  caption : String
  media_paths : List String
  scheduled_at : Nat
  status : String
  deriving Repr, DecidableEq

/-- The payload `updateStatus` persists into the `result` column: the
per-platform result array on normal return, an error description when
processing threw. -/
inductive Payload where
  | results (rs : List PlatformResult)
  | errMsg (error : String)
  deriving Repr, DecidableEq

/-- Ordering of rows by fire timestamp, the `ORDER BY scheduled_at ASC` of
`getPending`. -/
def scheduledLe (a b : ScheduledPost) : Prop :=
  a.scheduled_at ≤ b.scheduled_at

instance : DecidableRel scheduledLe :=
  fun a b => Nat.decLe a.scheduled_at b.scheduled_at

instance : IsTotal ScheduledPost scheduledLe :=
  ⟨fun a b => Nat.le_total a.scheduled_at b.scheduled_at⟩

instance : IsTrans ScheduledPost scheduledLe :=
  ⟨fun _ _ _ h h' => Nat.le_trans h h'⟩

/-- Embedding of `ScheduledPostModel.getPending`
(`src/src/services/scheduler.js` lines 565–577): the rows with
`status = 'pending'` and `scheduled_at <= now`, ordered by `scheduled_at`
ascending. -/
def getPending (store : List ScheduledPost) (now : Nat) : List ScheduledPost :=
  List.insertionSort scheduledLe
    (store.filter (fun p => p.status == "pending" && decide (p.scheduled_at ≤ now)))

/-- The dispatch `processScheduledPost` performs: the `files` array is
rebuilt from `media_paths` (lines 34–38) with `getMimeType` and the path
basename, then handed to `postToAllPlatforms` with the intent's
platforms, caption and the user's flattened settings. -/
def scheduledDispatch (post : ScheduledPost) (userSettings : UserSettings)
    (net : String → NetOutcome) (fault : Nat → Option String) :
    Except String (List PlatformResult) :=
  postToAllPlatforms post.platforms
    (post.media_paths.map (fun p =>
      { path := p, mimetype := getMimeType p, originalname := basename p }))
    post.caption userSettings net fault

/-- Embedding of `processScheduledPost` (`src/src/services/scheduler.js`
lines 14–65), observed through the sequence of
`ScheduledPostModel.updateStatus` writes it issues: first
`processing` with no payload; then, if the dispatch returns,
`completed` when every result succeeded and `partial` otherwise, with
the result array as payload; if it throws, `failed` with the error
description as payload. -/
def processScheduledPost (post : ScheduledPost) (userSettings : UserSettings)
    (net : String → NetOutcome) (fault : Nat → Option String) :
    List (String × Option Payload) :=
  ("processing", none) ::
    (match scheduledDispatch post userSettings net fault with
     | .ok results =>
       let allSuccess := results.all (fun r => r.success)
       let status := if allSuccess then "completed" else "partial"
       [(status, some (.results results))]
     | .error e => [("failed", some (.errMsg e))])

/-- Responses of the `DELETE /api/scheduled/:id` handler. -/
inductive CancelResponse where
  | notFound
  | forbidden
  | statusConflict (error : String)
  | cancelled
  deriving Repr, DecidableEq

/-- Embedding of the cancel route (`src/src/routes/scheduled.js` lines
157–215).  `disk` is the set of file paths present on disk.  Look the
post up by id; reject with 404 if absent, 403 if not owned, 400 with a
status-conflict message unless `pending`; otherwise unlink every
`media_paths` entry and delete the row. -/
def cancelScheduled (store : List ScheduledPost) (disk : List String)
    (userId postId : String) :
    List ScheduledPost × List String × CancelResponse :=
  match store.find? (fun p => p.id == postId) with
  | none => (store, disk, .notFound)
  | some post =>
    if post.user_id ≠ userId then
      (store, disk, .forbidden)
    else if post.status ≠ "pending" then
      (store, disk, .statusConflict ("Cannot cancel post with status: " ++ post.status))
    else
      (store.filter (fun p => p.id != postId),
       disk.filter (fun f => !(post.media_paths.contains f)),
       .cancelled)

/-- The `POST /api/scheduled` request after the upload middleware ran:
`files` are the paths multer has already written to disk,
`platforms` is `none` when `req.body.platforms` is falsy, and
`scheduledAt` is `none` when absent, `some none` when it does not parse
as a date, and `some (some t)` when it parses to time `t`. -/
structure CreateRequest where
  files : List String
  platforms : Option (List String)
  caption : String
  scheduledAt : Option (Option Nat)
  deriving Repr, DecidableEq

/-- Responses of the `POST /api/scheduled` handler. -/
inductive CreateResponse where
  | badRequest (error : String)
  | created (postId : String)
  deriving Repr, DecidableEq

/-- Embedding of the create route (`src/src/routes/scheduled.js` lines
66–152).  Multer persists the uploaded files before the handler body
runs, so the disk already holds `req.files` in every branch; the
handler itself never unlinks them.  Validation rejects an empty file
set, a falsy platform field, a missing/invalid fire time, and a fire
time not strictly in the future; only after all checks does it insert
the `pending` row. -/
def createScheduled (store : List ScheduledPost) (disk : List String)
    (now : Nat) (userId postId : String) (req : CreateRequest) :
    List ScheduledPost × List String × CreateResponse :=
  let disk1 := disk ++ req.files
  if req.files.isEmpty then
    (store, disk1, .badRequest "At least one media file is required")
  else
    match req.platforms with
    | none => (store, disk1, .badRequest "At least one platform must be selected")
    | some platformList =>
      match req.scheduledAt with
      | none => (store, disk1, .badRequest "Scheduled time is required")
      | some none => (store, disk1, .badRequest "Invalid scheduled time format")
      | some (some t) =>
        if t ≤ now then
          (store, disk1, .badRequest "Scheduled time must be in the future")
        else
          (store ++ [{ id := postId, user_id := userId,
                       platforms := platformList, caption := req.caption,
                       media_paths := req.files, scheduled_at := t,
                       status := "pending" }],
           disk1, .created postId)

/-- One response of the Instagram container-status poll: the
`status_code` field and the optional `status` detail. -/
structure PollResponse where
  status_code : String
  status : Option String
  deriving Repr, DecidableEq

/-- The fixed delay between two polls, `setTimeout(resolve, 5000)` on line
32 of `src/src/services/instagram.js`. -/
def waitPollIntervalMs : Nat := 5000

/-- The default attempt ceiling of `waitForMediaReady`. -/
def waitMaxAttemptsDefault : Nat := 60

/-- Loop body of `waitForMediaReady` (`src/src/services/instagram.js` lines
9–36) with explicit fuel: `poll k` is the `status_code`/`status` pair the
`k`-th GET returns.  The second component counts the polls actually
performed.  `FINISHED` returns `true`; `ERROR` throws
`Media processing failed: …`; exhausting the attempts throws
`Media processing timed out`. -/
def waitAux (poll : Nat → PollResponse) : Nat → Nat → Except String Bool × Nat
  | _, 0 => (.error "Media processing timed out", 0)
  | i, fuel + 1 =>
    let r := poll i
    if r.status_code = "FINISHED" then (.ok true, 1)
    else if r.status_code = "ERROR" then
      (.error ("Media processing failed: " ++ r.status.getD "Unknown error"), 1)
    else
      let rest := waitAux poll (i + 1) fuel
      (rest.1, rest.2 + 1)

/-- Embedding of `waitForMediaReady`: run the polling loop from attempt 0
with `maxAttempts` of fuel. -/
def waitForMediaReady (poll : Nat → PollResponse)
    (maxAttempts : Nat := waitMaxAttemptsDefault) : Except String Bool × Nat :=
  waitAux poll 0 maxAttempts

/-- Structure of `postVideo` in the Instagram adapter (lines 78–97):
`media_publish` is reached only when `waitForMediaReady` returned
normally; a throw propagates and the container is never published. -/
def igPublishAfterWait (poll : Nat → PollResponse) (maxAttempts : Nat) : Bool :=
  match (waitForMediaReady poll maxAttempts).1 with
  | .ok _ => true
  | .error _ => false

/-! Helper lemmas shared by the claim theorems. -/

/-- `settleAll` produces one result per requested platform. -/
theorem settleAll_length (files : List MediaFile) (caption : String)
    (mediaType : String) (userSettings : UserSettings)
    (net : String → NetOutcome) (fault : Nat → Option String)
    (i : Nat) (ps : List String) :
    (settleAll files caption mediaType userSettings net fault i ps).length = ps.length := by
  induction ps generalizing i with
  | nil => rfl
  | cons p ps ih => simp [settleAll, ih]

/-- The `j`-th entry of `settleAll` is the settled slot of the `j`-th
requested platform, at absolute index `i + j`. -/
theorem settleAll_getElem? (files : List MediaFile) (caption : String)
    (mediaType : String) (userSettings : UserSettings)
    (net : String → NetOutcome) (fault : Nat → Option String)
    (i j : Nat) (ps : List String) :
    (settleAll files caption mediaType userSettings net fault i ps)[j]? =
      (ps[j]?).map (settleSlot files caption mediaType userSettings net fault (i + j)) := by
  induction ps generalizing i j with
  | nil => simp [settleAll]
  | cons p ps ih =>
    cases j with
    | zero => simp [settleAll]
    | succ j =>
      have harith : i + 1 + j = i + (j + 1) := by omega
      simp [settleAll, ih (i + 1) j, harith]

/-- Unfolding of a successful dispatch on a non-empty media list. -/
theorem postToAllPlatforms_cons (platforms : List String) (f : MediaFile)
    (rest : List MediaFile) (caption : String) (userSettings : UserSettings)
    (net : String → NetOutcome) (fault : Nat → Option String) :
    postToAllPlatforms platforms (f :: rest) caption userSettings net fault =
      .ok (settleAll (f :: rest) caption (mediaKind f) userSettings net fault 0 platforms) := rfl

/-- The homogeneity invariant on a media list: all items are of one kind. -/
def homogeneousMedia (files : List MediaFile) : Prop :=
  ∀ f ∈ files, ∀ g ∈ files, isVideo f.mimetype = isVideo g.mimetype

instance (files : List MediaFile) : Decidable (homogeneousMedia files) := by
  unfold homogeneousMedia; infer_instance

/-- Appending strings is associative (on the underlying character data). -/
theorem string_append_assoc (a b c : String) : (a ++ b) ++ c = a ++ (b ++ c) := by
  cases a; cases b; cases c
  show String.append (String.append _ _) _ = String.append _ (String.append _ _)
  simp [String.append, List.append_assoc]

/-- A platform name outside the known set falls through every `case` of the
dispatch `switch` to the default unknown-platform failure. -/
theorem dispatchOne_unknown (files : List MediaFile) (caption : String)
    (mediaType : String) (userSettings : UserSettings)
    (net : String → NetOutcome) (p : String)
    (h : jsToLower p ∉
      (["facebook", "telegram", "tiktok", "instagram", "youtube"] : List String)) :
    dispatchOne files caption mediaType userSettings net p =
      { success := false, platform := p, error := some ("Unknown platform: " ++ p) } := by
  simp only [List.mem_cons, List.not_mem_nil, or_false, not_or] at h
  obtain ⟨h1, h2, h3, h4, h5⟩ := h
  simp [dispatchOne, h1, h2, h3, h4, h5]

/-- C1: for every non-empty platform list and non-empty media list
satisfying the homogeneity invariant, `postToAllPlatforms` returns a
result list of exactly `platforms.length` entries, and the `i`-th entry
is the settled `PlatformResult` of the `i`-th requested platform —
output order matches input platform order. -/
theorem dispatchAll_length_and_order (platforms : List String)
    (files : List MediaFile) (caption : String) (userSettings : UserSettings)
    (net : String → NetOutcome) (fault : Nat → Option String)
    (hP : platforms ≠ []) (hM : files ≠ []) (hhom : homogeneousMedia files) :
    ∃ rs, postToAllPlatforms platforms files caption userSettings net fault = .ok rs ∧
      rs.length = platforms.length ∧
      ∀ i : Nat, rs[i]? = (platforms[i]?).map
        (settleSlot files caption (mediaKind (files.head hM)) userSettings net fault i) := by
  match files, hM with
  | f :: rest, _ =>
    refine ⟨settleAll (f :: rest) caption (mediaKind f) userSettings net fault 0 platforms,
      rfl, settleAll_length .., fun i => ?_⟩
    simpa using settleAll_getElem? (f :: rest) caption (mediaKind f) userSettings net fault 0 i platforms

/-- Closed instance of `dispatchAll_length_and_order` at a concrete
two-platform, one-photo request. -/
theorem dispatchAll_length_and_order_witness :
    ∃ rs, postToAllPlatforms ["facebook", "telegram"]
        [{ path := "/u/a.jpg", mimetype := "image/jpeg", originalname := "a.jpg" }] "hi"
        { facebook_page_id := "pg", facebook_access_token := "tok" }
        (fun _ => .ok "id1") (fun _ => none) = .ok rs ∧
      rs.length = 2 ∧
      ∀ i : Nat, rs[i]? = ((["facebook", "telegram"] : List String)[i]?).map
        (settleSlot [{ path := "/u/a.jpg", mimetype := "image/jpeg", originalname := "a.jpg" }]
          "hi" "photo" { facebook_page_id := "pg", facebook_access_token := "tok" }
          (fun _ => .ok "id1") (fun _ => none) i) :=
  dispatchAll_length_and_order ["facebook", "telegram"]
    [{ path := "/u/a.jpg", mimetype := "image/jpeg", originalname := "a.jpg" }] "hi"
    { facebook_page_id := "pg", facebook_access_token := "tok" }
    (fun _ => .ok "id1") (fun _ => none)
    (by decide) (by decide) (by decide)

/-- C10: called on an empty media list, `postToAllPlatforms` throws (it
reads `files[0].mimetype` before any per-platform work) instead of
returning a result list, so a non-empty media list is a genuine
precondition; and on a non-empty list the derived kind is `photo`
whenever the first item's MIME type does not start with `video/`. -/
theorem dispatchAll_empty_media_throws_and_photo_kind
    (platforms : List String) (caption : String) (userSettings : UserSettings)
    (net : String → NetOutcome) (fault : Nat → Option String)
    (f : MediaFile) (rest : List MediaFile)
    (hmt : "video/".data.isPrefixOf f.mimetype.data = false) :
    postToAllPlatforms platforms [] caption userSettings net fault =
      .error "TypeError: cannot read mimetype of undefined" ∧
    mediaKind f = "photo" ∧
    postToAllPlatforms platforms (f :: rest) caption userSettings net fault =
      .ok (settleAll (f :: rest) caption "photo" userSettings net fault 0 platforms) := by
  have hkind : mediaKind f = "photo" := by
    simp [mediaKind, isVideo, hmt]
  exact ⟨rfl, hkind, by rw [postToAllPlatforms_cons, hkind]⟩

/-- Closed instance of `dispatchAll_empty_media_throws_and_photo_kind` at a
concrete GIF file, whose MIME type is not a `video/` type. -/
theorem dispatchAll_empty_media_throws_and_photo_kind_witness :
    postToAllPlatforms ["facebook"] [] "c" {} (fun _ => .ok "x") (fun _ => none) =
      .error "TypeError: cannot read mimetype of undefined" ∧
    mediaKind { path := "/u/a.gif", mimetype := "image/gif", originalname := "a.gif" } = "photo" ∧
    postToAllPlatforms ["facebook"]
        [{ path := "/u/a.gif", mimetype := "image/gif", originalname := "a.gif" }] "c" {}
        (fun _ => .ok "x") (fun _ => none) =
      .ok (settleAll [{ path := "/u/a.gif", mimetype := "image/gif", originalname := "a.gif" }]
        "c" "photo" {} (fun _ => .ok "x") (fun _ => none) 0 ["facebook"]) :=
  dispatchAll_empty_media_throws_and_photo_kind ["facebook"] "c" {}
    (fun _ => .ok "x") (fun _ => none)
    { path := "/u/a.gif", mimetype := "image/gif", originalname := "a.gif" } [] (by decide)

/-- C3: a requested platform name whose lower-casing is not in the known
set yields, at its own slot, a failure whose error is `Unknown platform`
followed by the requested name; the dispatch never throws; and every
other slot's result is unaffected (replacing the unknown name leaves all
results at other indices unchanged). -/
theorem dispatchAll_unknown_platform (platforms : List String)
    (files : List MediaFile) (caption : String) (userSettings : UserSettings)
    (net : String → NetOutcome) (fault : Nat → Option String) (i : Nat)
    (hi : i < platforms.length) (hM : files ≠ [])
    (hunk : jsToLower platforms[i] ∉
      (["facebook", "telegram", "tiktok", "instagram", "youtube"] : List String))
    (hfault : fault i = none) :
    ∃ rs, postToAllPlatforms platforms files caption userSettings net fault = .ok rs ∧
      rs[i]? = some { success := false, platform := platforms[i],
                      error := some ("Unknown platform: " ++ platforms[i]) } ∧
      ("Unknown platform: " ++ platforms[i]) =
        "Unknown platform" ++ (": " ++ platforms[i]) ∧
      ∀ platforms' : List String, platforms'.length = platforms.length →
        (∀ j, j ≠ i → platforms'[j]? = platforms[j]?) →
        ∃ rs', postToAllPlatforms platforms' files caption userSettings net fault = .ok rs' ∧
          ∀ j, j ≠ i → rs'[j]? = rs[j]? := by
  match files, hM with
  | f :: rest, _ =>
    refine ⟨settleAll (f :: rest) caption (mediaKind f) userSettings net fault 0 platforms,
      rfl, ?_, ?_, ?_⟩
    · have hslot : settleSlot (f :: rest) caption (mediaKind f) userSettings net fault
          i platforms[i] =
          dispatchOne (f :: rest) caption (mediaKind f) userSettings net platforms[i] := by
        unfold settleSlot; rw [hfault]
      rw [settleAll_getElem?, List.getElem?_eq_getElem hi]
      simp only [Option.map_some', Nat.zero_add, hslot,
        dispatchOne_unknown _ _ _ _ _ _ hunk]
    · rw [← string_append_assoc]
      rfl
    · intro platforms' _ hagree
      refine ⟨settleAll (f :: rest) caption (mediaKind f) userSettings net fault 0 platforms',
        rfl, fun j hj => ?_⟩
      rw [settleAll_getElem?, settleAll_getElem?, hagree j hj]

/-- Closed instance of `dispatchAll_unknown_platform`: a batch
`[facebook, MySpace]` yields at slot 1 the unknown-platform failure for
`MySpace`. -/
theorem dispatchAll_unknown_platform_witness :
    ∃ rs, postToAllPlatforms ["facebook", "MySpace"]
        [{ path := "/u/a.jpg", mimetype := "image/jpeg", originalname := "a.jpg" }] "hi"
        { facebook_page_id := "pg", facebook_access_token := "tok" }
        (fun _ => .ok "id1") (fun _ => none) = .ok rs ∧
      rs[1]? = some { success := false, platform := "MySpace",
                      error := some ("Unknown platform: " ++ "MySpace") } ∧
      ("Unknown platform: " ++ "MySpace") = "Unknown platform" ++ (": " ++ "MySpace") ∧
      ∀ platforms' : List String, platforms'.length = 2 →
        (∀ j, j ≠ 1 → platforms'[j]? = (["facebook", "MySpace"] : List String)[j]?) →
        ∃ rs', postToAllPlatforms platforms'
            [{ path := "/u/a.jpg", mimetype := "image/jpeg", originalname := "a.jpg" }] "hi"
            { facebook_page_id := "pg", facebook_access_token := "tok" }
            (fun _ => .ok "id1") (fun _ => none) = .ok rs' ∧
          ∀ j, j ≠ 1 → rs'[j]? = rs[j]? :=
  dispatchAll_unknown_platform ["facebook", "MySpace"]
    [{ path := "/u/a.jpg", mimetype := "image/jpeg", originalname := "a.jpg" }] "hi"
    { facebook_page_id := "pg", facebook_access_token := "tok" }
    (fun _ => .ok "id1") (fun _ => none) 1 (by decide) (by decide) (by decide) rfl

/-- C2: every adapter invocation resolves to exactly one `PlatformResult`
and never propagates an exception: when an adapter's pipeline throws,
the adapter's catch returns a failure result tagged with its platform;
and if a slot's promise still rejects, the dispatcher converts the
rejection into a failure result tagged with the requested platform while
every non-faulted slot keeps its adapter's result, so the batch neither
aborts nor loses other platforms' results. -/
theorem adapters_and_dispatcher_never_throw :
    (∀ (files : List MediaFile) (caption mediaType : String)
       (userSettings : UserSettings) (m : String),
       (postToFacebook files caption mediaType userSettings (.err m)).success = false ∧
       (postToFacebook files caption mediaType userSettings (.err m)).platform = "facebook" ∧
       (postToTelegram files caption mediaType userSettings (.err m)).success = false ∧
       (postToTelegram files caption mediaType userSettings (.err m)).platform = "telegram" ∧
       (postToTikTok files caption mediaType userSettings (.err m)).success = false ∧
       (postToTikTok files caption mediaType userSettings (.err m)).platform = "tiktok") ∧
    ∀ (platforms : List String) (files : List MediaFile) (caption : String)
      (userSettings : UserSettings) (net : String → NetOutcome)
      (fault : Nat → Option String) (i : Nat) (msg : String)
      (hM : files ≠ []) (hi : i < platforms.length) (hf : fault i = some msg),
      ∃ rs, postToAllPlatforms platforms files caption userSettings net fault = .ok rs ∧
        rs[i]? = some { success := false, platform := platforms[i],
                        error := some (if msg = "" then "Unknown error" else msg) } ∧
        ∀ j, j ≠ i → fault j = none → (hj : j < platforms.length) →
          rs[j]? = some (dispatchOne files caption (mediaKind (files.head hM))
            userSettings net platforms[j]) := by
  constructor
  · intro files caption mediaType userSettings m
    refine ⟨?_, ?_, ?_, ?_, ?_, ?_⟩ <;>
      first
        | (unfold postToFacebook; split_ifs <;> rfl)
        | (unfold postToTelegram; split_ifs <;> rfl)
        | (unfold postToTikTok; split_ifs <;> rfl)
  · intro platforms files caption userSettings net fault i msg hM hi hf
    match files, hM with
    | f :: rest, _ =>
      refine ⟨settleAll (f :: rest) caption (mediaKind f) userSettings net fault 0 platforms,
        rfl, ?_, ?_⟩
      · rw [settleAll_getElem?, List.getElem?_eq_getElem hi]
        simp only [Option.map_some', Nat.zero_add]
        unfold settleSlot
        rw [hf]
      · intro j hji hfj hj
        rw [settleAll_getElem?, List.getElem?_eq_getElem hj]
        simp only [Option.map_some', Nat.zero_add]
        unfold settleSlot
        rw [hfj]
        rfl

/-- Closed instance of `adapters_and_dispatcher_never_throw`: slot 1 of a
`[facebook, telegram]` batch rejects with an empty reason message and is
converted to an `Unknown error` failure, while slot 0 keeps the
Facebook adapter's result. -/
theorem adapters_and_dispatcher_never_throw_witness :
    (postToFacebook [] "c" "photo" {} (.err "boom")).success = false ∧
    ∃ rs, postToAllPlatforms ["facebook", "telegram"]
        [{ path := "/u/a.jpg", mimetype := "image/jpeg", originalname := "a.jpg" }] "hi"
        { facebook_page_id := "pg", facebook_access_token := "tok" }
        (fun _ => .ok "id1") (fun j => if j = 1 then some "" else none) = .ok rs ∧
      rs[1]? = some { success := false, platform := "telegram",
                      error := some (if "" = "" then "Unknown error" else "") } ∧
      ∀ j, j ≠ 1 → (if j = 1 then some "" else none) = none →
        (hj : j < (["facebook", "telegram"] : List String).length) →
        rs[j]? = some (dispatchOne
          [{ path := "/u/a.jpg", mimetype := "image/jpeg", originalname := "a.jpg" }] "hi"
          "photo" { facebook_page_id := "pg", facebook_access_token := "tok" }
          (fun _ => .ok "id1") (["facebook", "telegram"] : List String)[j]) :=
  ⟨(adapters_and_dispatcher_never_throw.1 [] "c" "photo" {} "boom").1,
    adapters_and_dispatcher_never_throw.2 ["facebook", "telegram"]
      [{ path := "/u/a.jpg", mimetype := "image/jpeg", originalname := "a.jpg" }] "hi"
      { facebook_page_id := "pg", facebook_access_token := "tok" }
      (fun _ => .ok "id1") (fun j => if j = 1 then some "" else none) 1 ""
      (by decide) (by decide) rfl⟩

/-- A `facebook` slot with an incomplete credential pair settles to the
fail-fast failure without consulting the network oracle. -/
theorem settleSlot_facebook_no_creds (files : List MediaFile)
    (caption mediaType : String) (userSettings : UserSettings)
    (net : String → NetOutcome) (fault : Nat → Option String) (i : Nat) (p : String)
    (hp : jsToLower p = "facebook")
    (hcred : userSettings.facebook_page_id = "" ∨ userSettings.facebook_access_token = "")
    (hfault : fault i = none) :
    settleSlot files caption mediaType userSettings net fault i p =
      { success := false, platform := "facebook",
        error := some "Facebook credentials not configured" } := by
  unfold settleSlot
  rw [hfault]
  show dispatchOne files caption mediaType userSettings net p = _
  unfold dispatchOne
  rw [hp]
  unfold postToFacebook
  rw [if_pos hcred]
  simp

/-- A `telegram` slot with an incomplete credential pair settles to the
fail-fast failure without consulting the network oracle. -/
theorem settleSlot_telegram_no_creds (files : List MediaFile)
    (caption mediaType : String) (userSettings : UserSettings)
    (net : String → NetOutcome) (fault : Nat → Option String) (i : Nat) (p : String)
    (hp : jsToLower p = "telegram")
    (hcred : userSettings.telegram_bot_token = "" ∨ userSettings.telegram_chat_id = "")
    (hfault : fault i = none) :
    settleSlot files caption mediaType userSettings net fault i p =
      { success := false, platform := "telegram",
        error := some "Telegram credentials not configured" } := by
  unfold settleSlot
  rw [hfault]
  show dispatchOne files caption mediaType userSettings net p = _
  unfold dispatchOne
  rw [hp]
  unfold postToTelegram
  rw [if_pos hcred]
  simp

/-- A slot that does not dispatch to Facebook reads none of the Facebook
credential fields: its settled result is unchanged when only those
fields differ. -/
theorem settleSlot_settings_agnostic_off_facebook (files : List MediaFile)
    (caption mediaType : String) (s s' : UserSettings)
    (net : String → NetOutcome) (fault : Nat → Option String) (i : Nat) (p : String)
    (hp : jsToLower p ≠ "facebook")
    (h1 : s'.telegram_bot_token = s.telegram_bot_token)
    (h2 : s'.telegram_chat_id = s.telegram_chat_id)
    (h3 : s'.tiktok_access_token = s.tiktok_access_token)
    (h4 : s'.tiktok_open_id = s.tiktok_open_id) :
    settleSlot files caption mediaType s' net fault i p =
      settleSlot files caption mediaType s net fault i p := by
  unfold settleSlot
  cases hfault : fault i with
  | some msg => rfl
  | none =>
    show dispatchOne files caption mediaType s' net p =
      dispatchOne files caption mediaType s net p
    unfold dispatchOne
    rw [if_neg hp, if_neg hp]
    by_cases htg : jsToLower p = "telegram"
    · rw [if_pos htg, if_pos htg]
      unfold postToTelegram
      rw [h1, h2]
    · rw [if_neg htg, if_neg htg]
      by_cases htk : jsToLower p = "tiktok"
      · rw [if_pos htk, if_pos htk]
        unfold postToTikTok
        rw [h3, h4]
      · rw [if_neg htk, if_neg htk]

/-- A slot that does not dispatch to Telegram reads none of the Telegram
credential fields. -/
theorem settleSlot_settings_agnostic_off_telegram (files : List MediaFile)
    (caption mediaType : String) (s s' : UserSettings)
    (net : String → NetOutcome) (fault : Nat → Option String) (i : Nat) (p : String)
    (hp : jsToLower p ≠ "telegram")
    (h1 : s'.facebook_page_id = s.facebook_page_id)
    (h2 : s'.facebook_access_token = s.facebook_access_token)
    (h3 : s'.tiktok_access_token = s.tiktok_access_token)
    (h4 : s'.tiktok_open_id = s.tiktok_open_id) :
    settleSlot files caption mediaType s' net fault i p =
      settleSlot files caption mediaType s net fault i p := by
  unfold settleSlot
  cases hfault : fault i with
  | some msg => rfl
  | none =>
    show dispatchOne files caption mediaType s' net p =
      dispatchOne files caption mediaType s net p
    unfold dispatchOne
    by_cases hfb : jsToLower p = "facebook"
    · rw [if_pos hfb, if_pos hfb]
      unfold postToFacebook
      rw [h1, h2]
    · rw [if_neg hfb, if_neg hfb, if_neg hp, if_neg hp]
      by_cases htk : jsToLower p = "tiktok"
      · rw [if_pos htk, if_pos htk]
        unfold postToTikTok
        rw [h3, h4]
      · rw [if_neg htk, if_neg htk]

/-- C4: a batch containing a platform whose required credential fields are
not all non-empty yields for that slot a `credentials not configured`
failure that is produced before any network call (the result is the same
under every network oracle), while every other platform's slot is
unaffected by that platform's credential fields.  Stated for the two
credential-checked adapters the claim's sources name: Facebook and
Telegram. -/
theorem dispatchAll_credentials_fail_fast (platforms : List String)
    (files : List MediaFile) (caption : String) (userSettings : UserSettings)
    (net net' : String → NetOutcome) (fault : Nat → Option String) (i : Nat)
    (hM : files ≠ []) (hi : i < platforms.length) (hfault : fault i = none) :
    (jsToLower platforms[i] = "facebook" →
      userSettings.facebook_page_id = "" ∨ userSettings.facebook_access_token = "" →
      ∃ rs, postToAllPlatforms platforms files caption userSettings net fault = .ok rs ∧
        rs[i]? = some { success := false, platform := "facebook",
                        error := some "Facebook credentials not configured" } ∧
        (∀ rs', postToAllPlatforms platforms files caption userSettings net' fault = .ok rs' →
          rs'[i]? = rs[i]?) ∧
        ∀ s' : UserSettings,
          s'.telegram_bot_token = userSettings.telegram_bot_token →
          s'.telegram_chat_id = userSettings.telegram_chat_id →
          s'.tiktok_access_token = userSettings.tiktok_access_token →
          s'.tiktok_open_id = userSettings.tiktok_open_id →
          ∀ rs', postToAllPlatforms platforms files caption s' net fault = .ok rs' →
            ∀ j (hj : j < platforms.length), jsToLower platforms[j] ≠ "facebook" →
              rs'[j]? = rs[j]?) ∧
    (jsToLower platforms[i] = "telegram" →
      userSettings.telegram_bot_token = "" ∨ userSettings.telegram_chat_id = "" →
      ∃ rs, postToAllPlatforms platforms files caption userSettings net fault = .ok rs ∧
        rs[i]? = some { success := false, platform := "telegram",
                        error := some "Telegram credentials not configured" } ∧
        (∀ rs', postToAllPlatforms platforms files caption userSettings net' fault = .ok rs' →
          rs'[i]? = rs[i]?) ∧
        ∀ s' : UserSettings,
          s'.facebook_page_id = userSettings.facebook_page_id →
          s'.facebook_access_token = userSettings.facebook_access_token →
          s'.tiktok_access_token = userSettings.tiktok_access_token →
          s'.tiktok_open_id = userSettings.tiktok_open_id →
          ∀ rs', postToAllPlatforms platforms files caption s' net fault = .ok rs' →
            ∀ j (hj : j < platforms.length), jsToLower platforms[j] ≠ "telegram" →
              rs'[j]? = rs[j]?) := by
  match files, hM with
  | f :: rest, _ =>
    constructor
    · intro hp hcred
      refine ⟨settleAll (f :: rest) caption (mediaKind f) userSettings net fault 0 platforms,
        rfl, ?_, ?_, ?_⟩
      · rw [settleAll_getElem?, List.getElem?_eq_getElem hi]
        simp only [Option.map_some', Nat.zero_add]
        rw [settleSlot_facebook_no_creds _ _ _ _ _ _ _ _ hp hcred hfault]
      · intro rs' h
        rw [postToAllPlatforms_cons] at h
        injection h with h
        subst h
        rw [settleAll_getElem?, settleAll_getElem?, List.getElem?_eq_getElem hi]
        simp only [Option.map_some', Nat.zero_add]
        rw [settleSlot_facebook_no_creds _ _ _ _ _ _ _ _ hp hcred hfault,
          settleSlot_facebook_no_creds _ _ _ _ _ _ _ _ hp hcred hfault]
      · intro s' e1 e2 e3 e4 rs' h j hj hpj
        rw [postToAllPlatforms_cons] at h
        injection h with h
        subst h
        rw [settleAll_getElem?, settleAll_getElem?, List.getElem?_eq_getElem hj]
        simp only [Option.map_some', Nat.zero_add]
        rw [settleSlot_settings_agnostic_off_facebook _ _ _ _ _ _ _ _ _ hpj e1 e2 e3 e4]
    · intro hp hcred
      refine ⟨settleAll (f :: rest) caption (mediaKind f) userSettings net fault 0 platforms,
        rfl, ?_, ?_, ?_⟩
      · rw [settleAll_getElem?, List.getElem?_eq_getElem hi]
        simp only [Option.map_some', Nat.zero_add]
        rw [settleSlot_telegram_no_creds _ _ _ _ _ _ _ _ hp hcred hfault]
      · intro rs' h
        rw [postToAllPlatforms_cons] at h
        injection h with h
        subst h
        rw [settleAll_getElem?, settleAll_getElem?, List.getElem?_eq_getElem hi]
        simp only [Option.map_some', Nat.zero_add]
        rw [settleSlot_telegram_no_creds _ _ _ _ _ _ _ _ hp hcred hfault,
          settleSlot_telegram_no_creds _ _ _ _ _ _ _ _ hp hcred hfault]
      · intro s' e1 e2 e3 e4 rs' h j hj hpj
        rw [postToAllPlatforms_cons] at h
        injection h with h
        subst h
        rw [settleAll_getElem?, settleAll_getElem?, List.getElem?_eq_getElem hj]
        simp only [Option.map_some', Nat.zero_add]
        rw [settleSlot_settings_agnostic_off_telegram _ _ _ _ _ _ _ _ _ hpj e1 e2 e3 e4]

/-- Closed instance of `dispatchAll_credentials_fail_fast`: one platform
with good credentials (telegram) and one without (facebook) in the same
batch; facebook's slot fails fast and telegram's slot is unaffected. -/
theorem dispatchAll_credentials_fail_fast_witness :
    ∃ rs, postToAllPlatforms ["telegram", "facebook"]
        [{ path := "/u/a.jpg", mimetype := "image/jpeg", originalname := "a.jpg" }] "hi"
        { telegram_bot_token := "bt", telegram_chat_id := "ch" }
        (fun _ => .ok "id1") (fun _ => none) = .ok rs ∧
      rs[1]? = some { success := false, platform := "facebook",
                      error := some "Facebook credentials not configured" } ∧
      (∀ rs', postToAllPlatforms ["telegram", "facebook"]
          [{ path := "/u/a.jpg", mimetype := "image/jpeg", originalname := "a.jpg" }] "hi"
          { telegram_bot_token := "bt", telegram_chat_id := "ch" }
          (fun _ => .err "network down") (fun _ => none) = .ok rs' →
        rs'[1]? = rs[1]?) ∧
      ∀ s' : UserSettings,
        s'.telegram_bot_token = "bt" → s'.telegram_chat_id = "ch" →
        s'.tiktok_access_token = "" → s'.tiktok_open_id = "" →
        ∀ rs', postToAllPlatforms ["telegram", "facebook"]
            [{ path := "/u/a.jpg", mimetype := "image/jpeg", originalname := "a.jpg" }] "hi"
            s' (fun _ => .ok "id1") (fun _ => none) = .ok rs' →
          ∀ j (hj : j < (["telegram", "facebook"] : List String).length),
            jsToLower (["telegram", "facebook"] : List String)[j] ≠ "facebook" →
            rs'[j]? = rs[j]? :=
  (dispatchAll_credentials_fail_fast ["telegram", "facebook"]
    [{ path := "/u/a.jpg", mimetype := "image/jpeg", originalname := "a.jpg" }] "hi"
    { telegram_bot_token := "bt", telegram_chat_id := "ch" }
    (fun _ => .ok "id1") (fun _ => .err "network down") (fun _ => none) 1
    (by decide) (by decide) rfl).1 (by decide) (Or.inl rfl)

/-- Membership in `getPending`: exactly the `pending` rows due at `now`. -/
theorem mem_getPending (store : List ScheduledPost) (now : Nat) (p : ScheduledPost) :
    p ∈ getPending store now ↔
      p ∈ store ∧ p.status = "pending" ∧ p.scheduled_at ≤ now := by
  unfold getPending
  rw [(List.perm_insertionSort scheduledLe _).mem_iff, List.mem_filter]
  simp [Bool.and_eq_true, beq_iff_eq, decide_eq_true_eq, and_assoc]

/-- C5: `getPending` returns exactly the intents whose status is `pending`
and whose fire timestamp is at or before `now` (a permutation of that
filter, with membership characterised), sorted ascending by fire
timestamp; an intent one second in the future is excluded, and intents
in any other status are never returned. -/
theorem getPending_due_and_sorted (store : List ScheduledPost) (now : Nat) :
    (∀ p, p ∈ getPending store now ↔
      p ∈ store ∧ p.status = "pending" ∧ p.scheduled_at ≤ now) ∧
    List.Sorted scheduledLe (getPending store now) ∧
    List.Perm (getPending store now)
      (store.filter (fun p => p.status == "pending" && decide (p.scheduled_at ≤ now))) ∧
    ∀ p ∈ store, p.scheduled_at = now + 1 → p ∉ getPending store now := by
  have hperm : List.Perm (getPending store now)
      (store.filter (fun p => p.status == "pending" && decide (p.scheduled_at ≤ now))) :=
    List.perm_insertionSort scheduledLe _
  refine ⟨mem_getPending store now, List.sorted_insertionSort scheduledLe _, hperm, ?_⟩
  intro p _ hfut hin
  have h := ((mem_getPending store now p).mp hin).2.2
  omega

/-- Closed instance of `getPending_due_and_sorted`: with `now = 5`, a
`pending` intent due at 3 is returned, the output is sorted, and a
`pending` intent due at 6 (one second in the future) is excluded. -/
theorem getPending_due_and_sorted_witness :
    ({ id := "b", user_id := "u", platforms := ["facebook"], caption := "",
       media_paths := [], scheduled_at := 3, status := "pending" } : ScheduledPost) ∈
      getPending
        [{ id := "a", user_id := "u", platforms := ["facebook"], caption := "",
           media_paths := [], scheduled_at := 9, status := "pending" },
         { id := "b", user_id := "u", platforms := ["facebook"], caption := "",
           media_paths := [], scheduled_at := 3, status := "pending" },
         { id := "f", user_id := "u", platforms := ["facebook"], caption := "",
           media_paths := [], scheduled_at := 6, status := "pending" }] 5 ∧
    List.Sorted scheduledLe
      (getPending
        [{ id := "a", user_id := "u", platforms := ["facebook"], caption := "",
           media_paths := [], scheduled_at := 9, status := "pending" },
         { id := "b", user_id := "u", platforms := ["facebook"], caption := "",
           media_paths := [], scheduled_at := 3, status := "pending" },
         { id := "f", user_id := "u", platforms := ["facebook"], caption := "",
           media_paths := [], scheduled_at := 6, status := "pending" }] 5) ∧
    ({ id := "f", user_id := "u", platforms := ["facebook"], caption := "",
       media_paths := [], scheduled_at := 6, status := "pending" } : ScheduledPost) ∉
      getPending
        [{ id := "a", user_id := "u", platforms := ["facebook"], caption := "",
           media_paths := [], scheduled_at := 9, status := "pending" },
         { id := "b", user_id := "u", platforms := ["facebook"], caption := "",
           media_paths := [], scheduled_at := 3, status := "pending" },
         { id := "f", user_id := "u", platforms := ["facebook"], caption := "",
           media_paths := [], scheduled_at := 6, status := "pending" }] 5 :=
  ⟨((getPending_due_and_sorted
      [{ id := "a", user_id := "u", platforms := ["facebook"], caption := "",
         media_paths := [], scheduled_at := 9, status := "pending" },
       { id := "b", user_id := "u", platforms := ["facebook"], caption := "",
         media_paths := [], scheduled_at := 3, status := "pending" },
       { id := "f", user_id := "u", platforms := ["facebook"], caption := "",
         media_paths := [], scheduled_at := 6, status := "pending" }] 5).1 _).mpr
      ⟨by decide, rfl, by decide⟩,
   (getPending_due_and_sorted
      [{ id := "a", user_id := "u", platforms := ["facebook"], caption := "",
         media_paths := [], scheduled_at := 9, status := "pending" },
       { id := "b", user_id := "u", platforms := ["facebook"], caption := "",
         media_paths := [], scheduled_at := 3, status := "pending" },
       { id := "f", user_id := "u", platforms := ["facebook"], caption := "",
         media_paths := [], scheduled_at := 6, status := "pending" }] 5).2.1,
   (getPending_due_and_sorted
      [{ id := "a", user_id := "u", platforms := ["facebook"], caption := "",
         media_paths := [], scheduled_at := 9, status := "pending" },
       { id := "b", user_id := "u", platforms := ["facebook"], caption := "",
         media_paths := [], scheduled_at := 3, status := "pending" },
       { id := "f", user_id := "u", platforms := ["facebook"], caption := "",
         media_paths := [], scheduled_at := 6, status := "pending" }] 5).2.2.2 _
      (by decide) rfl⟩

/-- C6: every scheduled intent follows
`pending → processing → (completed or partial or failed)`: the first
status write is `processing`; the second and last is `completed` exactly
when every `PlatformResult` succeeded, `partial` when at least one (but
not every one) succeeded — computed from the success flags, with the
result sequence persisted — and `failed` with the error description
persisted when the dispatch threw; no write returns to `pending`, and an
intent whose status is not `pending` is never picked up again by the
scheduler query. -/
theorem processScheduledPost_state_machine (post : ScheduledPost)
    (userSettings : UserSettings) (net : String → NetOutcome)
    (fault : Nat → Option String) :
    (∃ t payload,
      processScheduledPost post userSettings net fault =
        [("processing", none), (t, some payload)] ∧
      (t = "completed" ∨ t = "partial" ∨ t = "failed") ∧
      (∀ rs, scheduledDispatch post userSettings net fault = .ok rs →
        payload = Payload.results rs ∧
        (t = "completed" ↔ rs.all (fun r => r.success) = true) ∧
        ((∃ r ∈ rs, r.success = true) → rs.all (fun r => r.success) = false →
          t = "partial")) ∧
      (∀ e, scheduledDispatch post userSettings net fault = .error e →
        t = "failed" ∧ payload = Payload.errMsg e)) ∧
    (∀ w ∈ processScheduledPost post userSettings net fault, w.1 ≠ "pending") ∧
    ∀ (store : List ScheduledPost) (now : Nat) (q : ScheduledPost),
      q ∈ store → q.status ≠ "pending" → q ∉ getPending store now := by
  have main : ∃ t payload,
      processScheduledPost post userSettings net fault =
        [("processing", none), (t, some payload)] ∧
      (t = "completed" ∨ t = "partial" ∨ t = "failed") ∧
      (∀ rs, scheduledDispatch post userSettings net fault = .ok rs →
        payload = Payload.results rs ∧
        (t = "completed" ↔ rs.all (fun r => r.success) = true) ∧
        ((∃ r ∈ rs, r.success = true) → rs.all (fun r => r.success) = false →
          t = "partial")) ∧
      (∀ e, scheduledDispatch post userSettings net fault = .error e →
        t = "failed" ∧ payload = Payload.errMsg e) := by
    cases h : scheduledDispatch post userSettings net fault with
    | error e =>
      refine ⟨"failed", Payload.errMsg e, ?_, Or.inr (Or.inr rfl), ?_, ?_⟩
      · unfold processScheduledPost
        rw [h]
      · intro rs hrs
        exact absurd hrs (by simp)
      · intro e' he'
        injection he' with he'
        exact ⟨rfl, by rw [he']⟩
    | ok rs =>
      by_cases hall : rs.all (fun r => r.success) = true
      · refine ⟨"completed", Payload.results rs, ?_, Or.inl rfl, ?_, ?_⟩
        · unfold processScheduledPost
          rw [h]
          simp [hall]
        · intro rs' hrs'
          injection hrs' with hrs'
          subst hrs'
          exact ⟨rfl, by simp [hall], fun _ hfalse => absurd hall (by simp [hfalse])⟩
        · intro e' he'
          exact absurd he' (by simp)
      · refine ⟨"partial", Payload.results rs, ?_, Or.inr (Or.inl rfl), ?_, ?_⟩
        · unfold processScheduledPost
          rw [h]
          simp [hall]
        · intro rs' hrs'
          injection hrs' with hrs'
          subst hrs'
          refine ⟨rfl, ?_, fun _ _ => rfl⟩
          constructor
          · intro habs
            exact absurd habs (by decide)
          · intro habs
            exact absurd habs hall
        · intro e' he'
          exact absurd he' (by simp)
  refine ⟨main, ?_, ?_⟩
  · obtain ⟨t, payload, heq, hdisj, -, -⟩ := main
    intro w hw
    rw [heq] at hw
    simp only [List.mem_cons, List.not_mem_nil, or_false] at hw
    rcases hw with hw | hw
    · rw [hw]
      decide
    · rw [hw]
      rcases hdisj with h | h | h <;> (rw [h]; simp)
  · intro store now q _ hq hin
    exact hq ((mem_getPending store now q).mp hin).2.1

/-- Closed instance of `processScheduledPost_state_machine`: a one-platform
intent whose dispatch fully succeeds is written `processing` then
`completed`, with the results persisted, no write being `pending`; and a
`processing` row is never selected by `getPending`. -/
theorem processScheduledPost_state_machine_witness :
    (∃ t payload,
      processScheduledPost
        { id := "p1", user_id := "u", platforms := ["facebook"], caption := "c",
          media_paths := ["/m/a.jpg"], scheduled_at := 0, status := "pending" }
        { facebook_page_id := "pg", facebook_access_token := "tok" }
        (fun _ => .ok "id1") (fun _ => none) =
          [("processing", none), (t, some payload)] ∧
      payload = Payload.results
        [{ success := true, platform := "facebook", postId := some "id1",
           message := some "Successfully posted to Facebook" }] ∧
      t = "completed" ∧ t ≠ "pending") ∧
    ({ id := "q", user_id := "u", platforms := [], caption := "",
       media_paths := [], scheduled_at := 0,
       status := "processing" } : ScheduledPost) ∉
      getPending
        [{ id := "q", user_id := "u", platforms := [], caption := "",
           media_paths := [], scheduled_at := 0, status := "processing" }] 7 := by
  obtain ⟨⟨t, payload, heq, hdisj, hok, -⟩, -, hnever⟩ :=
    processScheduledPost_state_machine
      { id := "p1", user_id := "u", platforms := ["facebook"], caption := "c",
        media_paths := ["/m/a.jpg"], scheduled_at := 0, status := "pending" }
      { facebook_page_id := "pg", facebook_access_token := "tok" }
      (fun _ => .ok "id1") (fun _ => none)
  obtain ⟨hpay, hiff, -⟩ := hok
    [{ success := true, platform := "facebook", postId := some "id1",
       message := some "Successfully posted to Facebook" }] rfl
  have ht : t = "completed" := hiff.mpr (by decide)
  refine ⟨⟨t, payload, heq, hpay, ht, by rw [ht]; decide⟩, ?_⟩
  exact hnever _ 7 _ (by decide) (by decide)


/-- C7: a cancel request on an owned `pending` intent deletes the row and
all of its media files; on an owned intent in any other status it is
rejected with a status-conflict error and both the store and the disk
are left unchanged. -/
theorem cancelScheduled_pending_only (store : List ScheduledPost)
    (disk : List String) (userId postId : String) (post : ScheduledPost)
    (hfind : store.find? (fun p => p.id == postId) = some post) :
    (post.user_id = userId → post.status = "pending" →
      cancelScheduled store disk userId postId =
        (store.filter (fun p => p.id != postId),
         disk.filter (fun f => !(post.media_paths.contains f)),
         .cancelled) ∧
      (∀ q ∈ (cancelScheduled store disk userId postId).1, q.id ≠ postId) ∧
      ∀ f ∈ post.media_paths, f ∉ (cancelScheduled store disk userId postId).2.1) ∧
    (post.user_id = userId → post.status ≠ "pending" →
      cancelScheduled store disk userId postId =
        (store, disk,
         .statusConflict ("Cannot cancel post with status: " ++ post.status))) := by
  constructor
  · intro hown hpend
    have heq : cancelScheduled store disk userId postId =
        (store.filter (fun p => p.id != postId),
         disk.filter (fun f => !(post.media_paths.contains f)),
         .cancelled) := by
      simp [cancelScheduled, hfind, hown, hpend]
    refine ⟨heq, ?_, ?_⟩
    · intro q hq
      rw [heq] at hq
      have := (List.mem_filter.mp hq).2
      simpa using this
    · intro f hf hmem
      rw [heq] at hmem
      have := (List.mem_filter.mp hmem).2
      simp only [Bool.not_eq_true'] at this
      simp at this
      exact this hf
  · intro hown hnp
    simp [cancelScheduled, hfind, hown, hnp]

/-- Closed instance of `cancelScheduled_pending_only`: cancelling an owned
`pending` intent removes the row and its media file; cancelling an owned
`processing` intent is rejected and changes nothing. -/
theorem cancelScheduled_pending_only_witness :
    (cancelScheduled
        [{ id := "p1", user_id := "u1", platforms := ["facebook"], caption := "",
           media_paths := ["/m/a.jpg"], scheduled_at := 9, status := "pending" }]
        ["/m/a.jpg", "/m/other.jpg"] "u1" "p1" =
      ([], ["/m/other.jpg"], .cancelled)) ∧
    (cancelScheduled
        [{ id := "p2", user_id := "u1", platforms := ["facebook"], caption := "",
           media_paths := ["/m/b.jpg"], scheduled_at := 9, status := "processing" }]
        ["/m/b.jpg"] "u1" "p2" =
      ([{ id := "p2", user_id := "u1", platforms := ["facebook"], caption := "",
          media_paths := ["/m/b.jpg"], scheduled_at := 9, status := "processing" }],
       ["/m/b.jpg"],
       .statusConflict ("Cannot cancel post with status: " ++ "processing"))) :=
  ⟨((cancelScheduled_pending_only
      [{ id := "p1", user_id := "u1", platforms := ["facebook"], caption := "",
         media_paths := ["/m/a.jpg"], scheduled_at := 9, status := "pending" }]
      ["/m/a.jpg", "/m/other.jpg"] "u1" "p1"
      { id := "p1", user_id := "u1", platforms := ["facebook"], caption := "",
        media_paths := ["/m/a.jpg"], scheduled_at := 9, status := "pending" }
      (by decide)).1 rfl rfl).1,
   (cancelScheduled_pending_only
      [{ id := "p2", user_id := "u1", platforms := ["facebook"], caption := "",
         media_paths := ["/m/b.jpg"], scheduled_at := 9, status := "processing" }]
      ["/m/b.jpg"] "u1" "p2"
      { id := "p2", user_id := "u1", platforms := ["facebook"], caption := "",
        media_paths := ["/m/b.jpg"], scheduled_at := 9, status := "processing" }
      (by decide)).2 rfl (by decide)⟩

/-- C8 counterexample: a schedule request whose fire time (5) is in the
past of `now` (10) is rejected before persistence — no intent row is
created — but the uploaded file the middleware already wrote to disk is
retained, contradicting the claim that no files are retained. -/
theorem createScheduled_past_retains_file_counterexample :
    createScheduled [] [] 10 "u1" "p1"
        { files := ["/uploads/scheduled/u1/a.jpg"], platforms := some ["facebook"],
          caption := "", scheduledAt := some (some 5) } =
      ([], ["/uploads/scheduled/u1/a.jpg"],
       .badRequest "Scheduled time must be in the future") ∧
    "/uploads/scheduled/u1/a.jpg" ∈
      (createScheduled [] [] 10 "u1" "p1"
        { files := ["/uploads/scheduled/u1/a.jpg"], platforms := some ["facebook"],
          caption := "", scheduledAt := some (some 5) }).2.1 :=
  ⟨rfl, by decide⟩

/-- C8 (amended): a schedule request whose fire time is at or before `now`
is rejected before persistence — the store is unchanged, so no
`ScheduledIntent` is created — but the files the upload middleware wrote
remain on disk: the handler does not delete them. -/
theorem createScheduled_past_rejected_no_intent (store : List ScheduledPost)
    (disk : List String) (now : Nat) (userId postId : String)
    (req : CreateRequest) (t : Nat)
    (hsched : req.scheduledAt = some (some t)) (hpast : t ≤ now)
    (hfiles : req.files ≠ []) (hplat : req.platforms ≠ none) :
    createScheduled store disk now userId postId req =
      (store, disk ++ req.files,
       .badRequest "Scheduled time must be in the future") ∧
    ∀ f ∈ req.files, f ∈ (createScheduled store disk now userId postId req).2.1 := by
  obtain ⟨pl, hpl⟩ := Option.ne_none_iff_exists'.mp hplat
  have hne : req.files.isEmpty = false := by
    cases hfl : req.files with
    | nil => exact absurd hfl hfiles
    | cons a l => rfl
  have heq : createScheduled store disk now userId postId req =
      (store, disk ++ req.files,
       .badRequest "Scheduled time must be in the future") := by
    unfold createScheduled
    rw [hne, hpl, hsched]
    simp [if_pos hpast]
  refine ⟨heq, fun f hf => ?_⟩
  rw [heq]
  exact List.mem_append_right disk hf

/-- Closed instance of `createScheduled_past_rejected_no_intent`. -/
theorem createScheduled_past_rejected_no_intent_witness :
    createScheduled [] ["/old.jpg"] 10 "u1" "p1"
        { files := ["/fresh.jpg"], platforms := some ["telegram"],
          caption := "", scheduledAt := some (some 7) } =
      ([], ["/old.jpg"] ++ ["/fresh.jpg"],
       .badRequest "Scheduled time must be in the future") ∧
    ∀ f ∈ (["/fresh.jpg"] : List String),
      f ∈ (createScheduled [] ["/old.jpg"] 10 "u1" "p1"
        { files := ["/fresh.jpg"], platforms := some ["telegram"],
          caption := "", scheduledAt := some (some 7) }).2.1 :=
  createScheduled_past_rejected_no_intent [] ["/old.jpg"] 10 "u1" "p1"
    { files := ["/fresh.jpg"], platforms := some ["telegram"],
      caption := "", scheduledAt := some (some 7) } 7
    rfl (by decide) (by decide) (by decide)


/-- The polling loop performs at most `fuel` polls. -/
theorem waitAux_count_le (poll : Nat → PollResponse) (i fuel : Nat) :
    (waitAux poll i fuel).2 ≤ fuel := by
  induction fuel generalizing i with
  | zero => simp [waitAux]
  | succ n ih =>
    unfold waitAux
    by_cases h1 : (poll i).status_code = "FINISHED"
    · simp [h1]
    · by_cases h2 : (poll i).status_code = "ERROR"
      · simp [h1, h2]
      · simp only [h1, h2, if_false]
        have := ih (i + 1)
        omega

/-- The loop returns normally only when the poll it stopped at reported
`FINISHED`. -/
theorem waitAux_ok_finished (poll : Nat → PollResponse) (i fuel : Nat)
    (b : Bool) (h : (waitAux poll i fuel).1 = .ok b) :
    (poll (i + (waitAux poll i fuel).2 - 1)).status_code = "FINISHED" := by
  induction fuel generalizing i with
  | zero => simp [waitAux] at h
  | succ n ih =>
    unfold waitAux at h ⊢
    by_cases h1 : (poll i).status_code = "FINISHED"
    · simpa [h1] using h1
    · by_cases h2 : (poll i).status_code = "ERROR"
      · simp [h1, h2] at h
      · simp only [h1, h2, if_false] at h ⊢
        have hrec := ih (i + 1) h
        have harith : i + 1 + (waitAux poll (i + 1) n).2 - 1 =
            i + ((waitAux poll (i + 1) n).2 + 1) - 1 := by omega
        rw [harith] at hrec
        exact hrec

/-- If no poll in the window reports a terminal status, the loop exhausts
its fuel and throws the timeout error after exactly `fuel` polls. -/
theorem waitAux_timeout (poll : Nat → PollResponse) (i fuel : Nat)
    (h : ∀ k, i ≤ k → k < i + fuel →
      (poll k).status_code ≠ "FINISHED" ∧ (poll k).status_code ≠ "ERROR") :
    waitAux poll i fuel = (.error "Media processing timed out", fuel) := by
  induction fuel generalizing i with
  | zero => rfl
  | succ n ih =>
    have hk := h i (Nat.le_refl i) (by omega)
    unfold waitAux
    rw [if_neg hk.1, if_neg hk.2]
    rw [ih (i + 1) (fun k hk1 hk2 => h k (by omega) (by omega))]

/-- If the first terminal status in the window is `ERROR` at offset `k`,
the loop throws the processing-failure error after `k + 1` polls. -/
theorem waitAux_error_at (poll : Nat → PollResponse) (fuel k : Nat) :
    ∀ i, k < fuel → (poll (i + k)).status_code = "ERROR" →
    (∀ j < k, (poll (i + j)).status_code ≠ "FINISHED" ∧
      (poll (i + j)).status_code ≠ "ERROR") →
    waitAux poll i fuel =
      (.error ("Media processing failed: " ++
        ((poll (i + k)).status.getD "Unknown error")), k + 1) := by
  induction k generalizing fuel with
  | zero =>
    intro i hk herr _
    match fuel, hk with
    | m + 1, _ =>
      unfold waitAux
      have hnf : (poll i).status_code ≠ "FINISHED" := by
        intro habs
        rw [Nat.add_zero] at herr
        rw [habs] at herr
        exact absurd herr (by decide)
      rw [Nat.add_zero] at herr
      rw [if_neg hnf, if_pos herr]
      simp
  | succ k ih =>
    intro i hk herr hbefore
    match fuel, hk with
    | m + 1, hk =>
      have h0 := hbefore 0 (by omega)
      rw [Nat.add_zero] at h0
      unfold waitAux
      rw [if_neg h0.1, if_neg h0.2]
      have herr' : (poll (i + 1 + k)).status_code = "ERROR" := by
        have : i + 1 + k = i + (k + 1) := by omega
        rw [this]
        exact herr
      have hbefore' : ∀ j < k, (poll (i + 1 + j)).status_code ≠ "FINISHED" ∧
          (poll (i + 1 + j)).status_code ≠ "ERROR" := by
        intro j hj
        have : i + 1 + j = i + (j + 1) := by omega
        rw [this]
        exact hbefore (j + 1) (by omega)
      rw [ih m (i + 1) (by omega) herr' hbefore']
      have : i + 1 + k = i + (k + 1) := by omega
      rw [this]

/-- C9: `waitForMediaReady` always terminates within its attempt ceiling —
it performs at most `maxAttempts` polls at the fixed 5-second interval;
it returns success only when the poll it stopped at reported `FINISHED`;
if the upstream never reports a terminal status it throws the timeout
error after exactly `maxAttempts` polls; a reported `ERROR` status makes
it throw the processing-failure error; and whenever it throws, the
Instagram adapter never publishes the container. -/
theorem waitForMediaReady_bounded (poll : Nat → PollResponse) (maxAttempts : Nat) :
    (waitForMediaReady poll maxAttempts).2 ≤ maxAttempts ∧
    (∀ b, (waitForMediaReady poll maxAttempts).1 = .ok b →
      (poll ((waitForMediaReady poll maxAttempts).2 - 1)).status_code = "FINISHED") ∧
    ((∀ k < maxAttempts,
        (poll k).status_code ≠ "FINISHED" ∧ (poll k).status_code ≠ "ERROR") →
      waitForMediaReady poll maxAttempts =
        (.error "Media processing timed out", maxAttempts)) ∧
    (∀ k < maxAttempts, (poll k).status_code = "ERROR" →
      (∀ j < k, (poll j).status_code ≠ "FINISHED" ∧ (poll j).status_code ≠ "ERROR") →
      waitForMediaReady poll maxAttempts =
        (.error ("Media processing failed: " ++ ((poll k).status.getD "Unknown error")),
         k + 1)) ∧
    (∀ e, (waitForMediaReady poll maxAttempts).1 = .error e →
      igPublishAfterWait poll maxAttempts = false) ∧
    waitPollIntervalMs = 5000 ∧ waitMaxAttemptsDefault = 60 := by
  refine ⟨waitAux_count_le poll 0 maxAttempts, ?_, ?_, ?_, ?_, rfl, rfl⟩
  · intro b hb
    have := waitAux_ok_finished poll 0 maxAttempts b hb
    simpa using this
  · intro h
    exact waitAux_timeout poll 0 maxAttempts (fun k hk1 hk2 => h k (by omega))
  · intro k hk herr hbefore
    have := waitAux_error_at poll maxAttempts k 0 hk (by simpa using herr)
      (fun j hj => by simpa using hbefore j hj)
    simpa using this
  · intro e he
    unfold igPublishAfterWait
    rw [he]

/-- Closed instance of `waitForMediaReady_bounded`: an upstream that never
reports a terminal status makes the loop stop after exactly its 3
allowed polls with the timeout error and no publish. -/
theorem waitForMediaReady_bounded_witness :
    (waitForMediaReady (fun _ => { status_code := "IN_PROGRESS", status := none }) 3).2 ≤ 3 ∧
    waitForMediaReady (fun _ => { status_code := "IN_PROGRESS", status := none }) 3 =
      (.error "Media processing timed out", 3) ∧
    igPublishAfterWait (fun _ => { status_code := "IN_PROGRESS", status := none }) 3 = false :=
  ⟨(waitForMediaReady_bounded (fun _ => { status_code := "IN_PROGRESS", status := none }) 3).1,
   (waitForMediaReady_bounded (fun _ => { status_code := "IN_PROGRESS", status := none }) 3).2.2.1
     (by intro k _; exact ⟨by decide, by decide⟩),
   (waitForMediaReady_bounded (fun _ => { status_code := "IN_PROGRESS", status := none }) 3).2.2.2.2.1
     "Media processing timed out" rfl⟩


end MediaPoster
